import Mathlib

/-!
Shallow embedding of the duel scheduling and adjudication engine
(`src/utils.py` and `src/routes/duels.py` of the adhack backend).

Conventions of the embedding:
* A calendar date is an integer `d : Int`, the number of days since an
  arbitrary epoch; the UTC midnight instant that starts date `d` is the
  integer `d * 86400` (seconds since the epoch).
* A Python `datetime` is `PyDateTime`: an absolute time in seconds
  together with its `tzinfo` as an optional UTC offset (`none` models a
  naive datetime, `some o` an aware one with `utcoffset = o` seconds).
* Fallible Python code (functions that may `raise ValueError`) is
  embedded in `Except String`.
* The process-global random source is made explicit: the value that
  `random.randrange(total)` would return is passed in as a parameter
  `r : Nat`; its contract `r < total` appears as a hypothesis where
  needed.
-/

/-- A Python `datetime`: absolute seconds since the epoch plus the
`tzinfo` utc-offset (in seconds); `none` models a naive datetime. -/
structure PyDateTime where
  seconds : Int
  tzOffset : Option Int
deriving DecidableEq

/-- `t.tzinfo is None or t.tzinfo.utcoffset(t) != timedelta(0)`:
the condition under which the UTC-awareness guards in `utils.py`
raise `ValueError`. -/
def PyDateTime.notUtcAware (t : PyDateTime) : Bool :=
  t.tzOffset ≠ some 0

/-- `DUEL_START_HOUR_LOCAL = 12` (utils.py). -/
def DUEL_START_HOUR_LOCAL : Int := 12

/-- `CHECKIN_TOLERANCE_MINUTES = 2` (utils.py). -/
def CHECKIN_TOLERANCE_MINUTES : Int := 2

/-- Start of the duel activity window for date `d`:
`datetime.combine(reference_date_utc, time(hour=12), tzinfo=utc)`,
i.e. `d`@12:00 UTC, in seconds since the epoch. -/
def duelWindowStart (d : Int) : Int := d * 86400 + DUEL_START_HOUR_LOCAL * 3600

/-- End of the duel activity window for date `d`:
`datetime.combine(reference_date_utc + timedelta(days=1), time(hour=0), tzinfo=utc)`,
i.e. `(d+1)`@00:00 UTC, in seconds since the epoch. -/
def duelWindowEnd (d : Int) : Int := (d + 1) * 86400

/-- `calculate_blackout_window_utc` (utils.py 23-49): `none` when the
start hour is absent or outside `[12, 19]`, otherwise the pair
`(d@h:00 UTC, d@h:00 UTC + 5h)` in seconds since the epoch. -/
def calculate_blackout_window_utc (blackout_start_hour_local : Option Int)
    (reference_date_utc : Int) : Option (Int × Int) :=
  match blackout_start_hour_local with
  | none => none
  | some h =>
      if 12 ≤ h ∧ h ≤ 19 then
        let start_dt_utc := reference_date_utc * 86400 + h * 3600
        let end_dt_utc := start_dt_utc + 5 * 3600
        some (start_dt_utc, end_dt_utc)
      else
        none

/-- The list `valid_intervals_seconds` built by
`generate_random_snipe_time_utc` (utils.py 79-105): offsets in seconds
from the start of the duel window, as `(start_offset, end_offset)`
pairs. -/
def valid_intervals_seconds (target_user_blackout_start_hour : Option Int)
    (reference_date_utc : Int) : List (Int × Int) :=
  let duel_window_start_utc := duelWindowStart reference_date_utc
  let duel_window_end_utc := duelWindowEnd reference_date_utc
  let total_window_seconds := duel_window_end_utc - duel_window_start_utc
  match calculate_blackout_window_utc target_user_blackout_start_hour reference_date_utc with
  | some (blackout_start_utc, blackout_end_utc) =>
      let effective_blackout_start := max duel_window_start_utc blackout_start_utc
      let effective_blackout_end := min duel_window_end_utc blackout_end_utc
      (if effective_blackout_start > duel_window_start_utc then
        let start_offset : Int := 0
        let end_offset := effective_blackout_start - duel_window_start_utc
        if end_offset > start_offset then [(start_offset, end_offset)] else []
      else []) ++
      (if effective_blackout_end < duel_window_end_utc then
        let start_offset := effective_blackout_end - duel_window_start_utc
        let end_offset := total_window_seconds
        if end_offset > start_offset then [(start_offset, end_offset)] else []
      else [])
  | none => [(0, total_window_seconds)]

/-- `sum(end - start for start, end in valid_intervals_seconds)`. -/
def total_valid_seconds (hour : Option Int) (d : Int) : Int :=
  ((valid_intervals_seconds hour d).map (fun p => p.2 - p.1)).sum

/-- The interval-selection loop of `generate_random_snipe_time_utc`
(utils.py 121-129): walk the intervals accumulating their durations and
place the random offset `r` in the first interval whose cumulative
length exceeds it; `0` if the loop falls through (Python initialises
`final_offset_in_window = 0`). -/
def final_offset_in_window : List (Int × Int) → Int → Int → Int
  | [], _, _ => 0
  | (s, e) :: rest, r, cum =>
      if r < cum + (e - s) then s + (r - cum)
      else final_offset_in_window rest r (cum + (e - s))

/-- `generate_random_snipe_time_utc` (utils.py 51-134), with the value
returned by `random.randrange(total_valid_seconds)` passed in as `r`.
The two `raise ValueError` branches become `Except.error`. -/
def generate_random_snipe_time_utc (target_user_blackout_start_hour : Option Int)
    (reference_date_utc : Int) (r : Nat) : Except String Int :=
  let duel_window_start_utc := duelWindowStart reference_date_utc
  let ivs := valid_intervals_seconds target_user_blackout_start_hour reference_date_utc
  if ivs = [] then
    Except.error "No valid time intervals found for snipe time generation."
  else
    let total := total_valid_seconds target_user_blackout_start_hour reference_date_utc
    if total ≤ 0 then
      Except.error "Total valid seconds for snipe time is zero or negative."
    else
      Except.ok (duel_window_start_utc + final_offset_in_window ivs (r : Int) 0)

/-- `is_valid_checkin_time` (utils.py 137-159).  The Python parameters
may be `None` (truth-tested with `not`), so both datetimes are
`Option PyDateTime`; the UTC-awareness guards raise, hence `Except`. -/
def is_valid_checkin_time (snipe_time_utc checkin_time_utc : Option PyDateTime)
    (tolerance_minutes : Int := CHECKIN_TOLERANCE_MINUTES) : Except String Bool :=
  match snipe_time_utc, checkin_time_utc with
  | none, _ => Except.ok false
  | _, none => Except.ok false
  | some s, some t =>
      if s.notUtcAware then
        Except.error "snipe_time_utc must be timezone-aware UTC"
      else if t.notUtcAware then
        Except.error "checkin_time_utc must be timezone-aware UTC"
      else
        let lower_bound := s.seconds - tolerance_minutes * 60
        let upper_bound := s.seconds + tolerance_minutes * 60
        Except.ok (lower_bound ≤ t.seconds ∧ t.seconds ≤ upper_bound)

/-- `is_valid_prediction_time` (utils.py 162-199). -/
def is_valid_prediction_time (current_time_utc : PyDateTime)
    (opponent_blackout_start_hour : Option Int)
    (reference_date_utc : Int) : Except String Bool :=
  if current_time_utc.notUtcAware then
    Except.error "current_time_utc must be timezone-aware UTC"
  else
    let duel_window_start_utc := duelWindowStart reference_date_utc
    let duel_window_end_utc := duelWindowEnd reference_date_utc
    let t := current_time_utc.seconds
    if t < duel_window_start_utc ∨ t ≥ duel_window_end_utc then
      Except.ok true
    else
      match calculate_blackout_window_utc opponent_blackout_start_hour reference_date_utc with
      | some (blackout_start_utc, blackout_end_utc) =>
          if blackout_start_utc ≤ t ∧ t < blackout_end_utc then
            Except.ok true
          else
            Except.ok false
      | none => Except.ok false

/-- `calculate_haversine_distance` (utils.py 204-224). -/
def calculate_haversine_distance (lat1 lon1 lat2 lon2 : Float) : Float :=
  let R : Float := 6371000
  let lat1_rad := lat1 * 3.141592653589793 / 180
  let lon1_rad := lon1 * 3.141592653589793 / 180
  let lat2_rad := lat2 * 3.141592653589793 / 180
  let lon2_rad := lon2 * 3.141592653589793 / 180
  let dlon := lon2_rad - lon1_rad
  let dlat := lat2_rad - lat1_rad
  let a := (Float.sin (dlat / 2)) ^ 2 +
    Float.cos lat1_rad * Float.cos lat2_rad * (Float.sin (dlon / 2)) ^ 2
  let c := 2 * Float.atan2 (Float.sqrt a) (Float.sqrt (1 - a))
  R * c

/-- `DuelStatus` (models.py 11-14). -/
inductive DuelStatus where
  | PENDING
  | ACTIVE
  | COMPLETED
deriving DecidableEq

/-- The duel record fields read by `_calculate_and_update_duel_results`
(duels.py 47-74).  User ids are abstracted to `Nat`; snipe times are
instants in seconds since the epoch (the stored ISO strings parse back
to the aware datetimes they serialised). -/
structure DuelData where
  status : DuelStatus
  user1_id : Nat
  user2_id : Nat
  user1_predicted_lat : Option Float
  user1_predicted_lon : Option Float
  user2_predicted_lat : Option Float
  user2_predicted_lon : Option Float
  user1_actual_lat : Option Float
  user1_actual_lon : Option Float
  user2_actual_lat : Option Float
  user2_actual_lon : Option Float
  snipe_time_user1 : Option Int
  snipe_time_user2 : Option Int
  user1_dq : Bool
  user2_dq : Bool
  user1_final_distance : Option Float
  user2_final_distance : Option Float
  winner_user_id : Option Nat
  completed_at : Option Int

/-- The `update_payload` written back by
`_calculate_and_update_duel_results` (duels.py 118-126). -/
structure DuelUpdatePayload where
  user1_dq : Bool
  user2_dq : Bool
  user1_final_distance : Option Float
  user2_final_distance : Option Float
  winner_user_id : Option Nat
  status : DuelStatus
  completed_at : Int

/-- `_calculate_and_update_duel_results` (duels.py 32-130), as a pure
function of the fetched duel snapshot and the current time `now`.
`none` models the early returns that write nothing (already COMPLETED,
or a snipe time missing); `some payload` models the single database
update the function performs. -/
def _calculate_and_update_duel_results (duel_data : DuelData) (now : Int) :
    Option DuelUpdatePayload :=
  if duel_data.status = DuelStatus.COMPLETED then
    none
  else
    match duel_data.snipe_time_user1, duel_data.snipe_time_user2 with
    | none, _ => none
    | _, none => none
    | some snipe_time_u1, some snipe_time_u2 =>
        let dq_grace_period := (CHECKIN_TOLERANCE_MINUTES + 3) * 60
        let u1_dq₀ := duel_data.user1_dq
        let u2_dq₀ := duel_data.user2_dq
        let u1_dq := if duel_data.user1_actual_lat.isNone ∧ now > snipe_time_u1 + dq_grace_period
          then true else u1_dq₀
        let u2_dq := if duel_data.user2_actual_lat.isNone ∧ now > snipe_time_u2 + dq_grace_period
          then true else u2_dq₀
        let result : Option Nat × Option Float × Option Float :=
          if u1_dq ∧ u2_dq then (none, none, none)
          else if u1_dq then (some duel_data.user2_id, none, none)
          else if u2_dq then (some duel_data.user1_id, none, none)
          else
            let ds : Option Float × Option Float :=
              if duel_data.user1_predicted_lat.isSome ∧ duel_data.user1_predicted_lon.isSome ∧
                 duel_data.user2_actual_lat.isSome ∧ duel_data.user2_actual_lon.isSome ∧
                 duel_data.user2_predicted_lat.isSome ∧ duel_data.user2_predicted_lon.isSome ∧
                 duel_data.user1_actual_lat.isSome ∧ duel_data.user1_actual_lon.isSome then
                (some (calculate_haversine_distance
                    (duel_data.user1_predicted_lat.getD 0) (duel_data.user1_predicted_lon.getD 0)
                    (duel_data.user2_actual_lat.getD 0) (duel_data.user2_actual_lon.getD 0)),
                 some (calculate_haversine_distance
                    (duel_data.user2_predicted_lat.getD 0) (duel_data.user2_predicted_lon.getD 0)
                    (duel_data.user1_actual_lat.getD 0) (duel_data.user1_actual_lon.getD 0)))
              else (none, none)
            match ds with
            | (some distance1, some distance2) =>
                if distance1 < distance2 then (some duel_data.user1_id, some distance1, some distance2)
                else if distance2 < distance1 then (some duel_data.user2_id, some distance1, some distance2)
                else (none, some distance1, some distance2)
            | (some distance1, none) => (some duel_data.user1_id, some distance1, none)
            | (none, some distance2) => (some duel_data.user2_id, none, some distance2)
            | (none, none) => (none, none, none)
        some { user1_dq := u1_dq
               user2_dq := u2_dq
               user1_final_distance := result.2.1
               user2_final_distance := result.2.2
               winner_user_id := result.1
               status := DuelStatus.COMPLETED
               completed_at := now }

/-- The snipe-time assignments in `accept_duel` (duels.py 254-257):
`snipe_time_1 = utils.generate_random_snipe_time_utc(u1_blackout, duel_date)` and
`snipe_time_2 = utils.generate_random_snipe_time_utc(u2_blackout, duel_date)`,
with the two `random.randrange` draws made explicit as `r1`, `r2`. -/
def accept_duel_snipe_times (u1_blackout u2_blackout : Option Int)
    (duel_date : Int) (r1 r2 : Nat) : Except String (Int × Int) := do
  let snipe_time_1 ← generate_random_snipe_time_utc u1_blackout duel_date r1
  let snipe_time_2 ← generate_random_snipe_time_utc u2_blackout duel_date r2
  return (snipe_time_1, snipe_time_2)

/-! ## Structural lemmas about the snipe-time generator -/

/-- With no blackout window, the candidate list is the whole activity
window. -/
lemma valid_intervals_of_no_blackout (hour : Option Int) (d : Int)
    (hb : calculate_blackout_window_utc hour d = none) :
    valid_intervals_seconds hour d = [(0, 43200)] := by
  have hw : duelWindowEnd d - duelWindowStart d = 43200 := by
    simp [duelWindowEnd, duelWindowStart, DUEL_START_HOUR_LOCAL]; ring
  simp only [valid_intervals_seconds, hb, hw]

/-- A produced blackout window comes from an in-range hour and has the
concrete endpoints of `calculate_blackout_window_utc`. -/
lemma blackout_window_shape (hour : Option Int) (d bs be : Int)
    (hb : calculate_blackout_window_utc hour d = some (bs, be)) :
    ∃ h, hour = some h ∧ 12 ≤ h ∧ h ≤ 19 ∧
      bs = d * 86400 + h * 3600 ∧ be = bs + 18000 := by
  cases hour with
  | none => simp [calculate_blackout_window_utc] at hb
  | some h =>
      by_cases hrange : 12 ≤ h ∧ h ≤ 19
      · refine ⟨h, rfl, hrange.1, hrange.2, ?_, ?_⟩ <;>
        · simp [calculate_blackout_window_utc, hrange] at hb
          omega
      · simp [calculate_blackout_window_utc, hrange] at hb

/-- With a blackout window, the candidate list reduces to the pre- and
post-blackout sub-intervals (each present only when nonempty). -/
lemma valid_intervals_of_blackout (hour : Option Int) (d bs be : Int)
    (hb : calculate_blackout_window_utc hour d = some (bs, be)) :
    valid_intervals_seconds hour d =
      (if duelWindowStart d < bs then [((0:Int), bs - duelWindowStart d)] else []) ++
      (if be < duelWindowEnd d then [(be - duelWindowStart d, (43200:Int))] else []) := by
  obtain ⟨h, _, h1, h2, hbs, hbe⟩ := blackout_window_shape hour d bs be hb
  have hws : duelWindowStart d = d * 86400 + 43200 := by
    unfold duelWindowStart DUEL_START_HOUR_LOCAL; omega
  have hwe : duelWindowEnd d = d * 86400 + 86400 := by
    unfold duelWindowEnd; omega
  have hmax : max (duelWindowStart d) bs = bs := by
    apply max_eq_right; omega
  have hmin : min (duelWindowEnd d) be = be := by
    apply min_eq_right; omega
  have hw : duelWindowEnd d - duelWindowStart d = 43200 := by omega
  simp only [valid_intervals_seconds, hb, hmax, hmin, hw]
  by_cases hc1 : duelWindowStart d < bs <;> by_cases hc2 : be < duelWindowEnd d <;>
    simp [hc1, hc2] <;> omega

lemma duelWindowStart_eq (d : Int) : duelWindowStart d = d * 86400 + 43200 := by
  unfold duelWindowStart DUEL_START_HOUR_LOCAL; omega

lemma duelWindowEnd_eq (d : Int) : duelWindowEnd d = d * 86400 + 86400 := by
  unfold duelWindowEnd; omega

/-- Interval-selection loop on a single candidate interval: the chosen
offset lies inside it. -/
lemma final_offset_one (a b r : Int) (h0 : 0 ≤ r) (hlt : r < b - a) :
    a ≤ final_offset_in_window [(a, b)] r 0 ∧
      final_offset_in_window [(a, b)] r 0 < b := by
  simp only [final_offset_in_window]
  split_ifs with hA
  · omega
  · exfalso; omega

/-- Interval-selection loop on two candidate intervals: the chosen
offset lies inside one of them. -/
lemma final_offset_two (a b c e r : Int) (h0 : 0 ≤ r)
    (hlt : r < (b - a) + (e - c)) :
    (a ≤ final_offset_in_window [(a, b), (c, e)] r 0 ∧
       final_offset_in_window [(a, b), (c, e)] r 0 < b) ∨
    (c ≤ final_offset_in_window [(a, b), (c, e)] r 0 ∧
       final_offset_in_window [(a, b), (c, e)] r 0 < e) := by
  simp only [final_offset_in_window]
  split_ifs with hA hB
  · left; omega
  · right; omega
  · exfalso; omega

/-- Core property of the generator: whenever the injected random draw
respects the `randrange` contract, generation succeeds and the snipe
time lies inside the activity window and outside the blackout window. -/
lemma generate_snipe_mem (hour : Option Int) (d : Int) (r : Nat)
    (hr : (r : Int) < total_valid_seconds hour d) :
    ∃ t, generate_random_snipe_time_utc hour d r = Except.ok t ∧
      duelWindowStart d ≤ t ∧ t < duelWindowEnd d ∧
      ∀ bs be, calculate_blackout_window_utc hour d = some (bs, be) →
        t < bs ∨ be ≤ t := by
  have hr0 : (0 : Int) ≤ (r : Int) := Int.natCast_nonneg r
  have hws := duelWindowStart_eq d
  have hwe := duelWindowEnd_eq d
  have hpos : ¬ (total_valid_seconds hour d ≤ 0) := by omega
  cases hb : calculate_blackout_window_utc hour d with
  | none =>
      have hIV := valid_intervals_of_no_blackout hour d hb
      have hne : valid_intervals_seconds hour d ≠ [] := by rw [hIV]; simp
      rw [total_valid_seconds, hIV] at hr
      simp only [List.map_cons, List.map_nil, List.sum_cons, List.sum_nil,
        add_zero] at hr
      refine ⟨duelWindowStart d +
          final_offset_in_window (valid_intervals_seconds hour d) (r : Int) 0,
        by simp [generate_random_snipe_time_utc, hne, hpos], ?_, ?_, ?_⟩
      · rw [hIV]
        have := final_offset_one 0 43200 (r : Int) hr0 (by omega)
        omega
      · rw [hIV]
        have := final_offset_one 0 43200 (r : Int) hr0 (by omega)
        omega
      · intro bs be hbb
        exact absurd hbb (by simp)
  | some p =>
      obtain ⟨bs, be⟩ := p
      obtain ⟨h, hh, h1, h2, hbs, hbe⟩ := blackout_window_shape hour d bs be hb
      have hIV := valid_intervals_of_blackout hour d bs be hb
      by_cases hc1 : duelWindowStart d < bs <;> by_cases hc2 : be < duelWindowEnd d
      · -- both candidate intervals
        have hIV2 : valid_intervals_seconds hour d =
            [(0, bs - duelWindowStart d), (be - duelWindowStart d, 43200)] := by
          rw [hIV, if_pos hc1, if_pos hc2]; rfl
        have hne : valid_intervals_seconds hour d ≠ [] := by rw [hIV2]; simp
        rw [total_valid_seconds, hIV2] at hr
        simp only [List.map_cons, List.map_nil, List.sum_cons, List.sum_nil,
          add_zero] at hr
        refine ⟨duelWindowStart d +
            final_offset_in_window (valid_intervals_seconds hour d) (r : Int) 0,
          by simp [generate_random_snipe_time_utc, hne, hpos], ?_, ?_, ?_⟩
        · rw [hIV2]
          have := final_offset_two 0 (bs - duelWindowStart d)
            (be - duelWindowStart d) 43200 (r : Int) hr0 (by omega)
          omega
        · rw [hIV2]
          have := final_offset_two 0 (bs - duelWindowStart d)
            (be - duelWindowStart d) 43200 (r : Int) hr0 (by omega)
          omega
        · intro bs₁ be₁ hbb
          simp only [Option.some.injEq, Prod.mk.injEq] at hbb
          rw [hIV2]
          have := final_offset_two 0 (bs - duelWindowStart d)
            (be - duelWindowStart d) 43200 (r : Int) hr0 (by omega)
          omega
      · -- only the pre-blackout interval (blackout reaches the window end)
        have hIV2 : valid_intervals_seconds hour d =
            [(0, bs - duelWindowStart d)] := by
          rw [hIV, if_pos hc1, if_neg hc2]; rfl
        have hne : valid_intervals_seconds hour d ≠ [] := by rw [hIV2]; simp
        rw [total_valid_seconds, hIV2] at hr
        simp only [List.map_cons, List.map_nil, List.sum_cons, List.sum_nil,
          add_zero] at hr
        refine ⟨duelWindowStart d +
            final_offset_in_window (valid_intervals_seconds hour d) (r : Int) 0,
          by simp [generate_random_snipe_time_utc, hne, hpos], ?_, ?_, ?_⟩
        · rw [hIV2]
          have := final_offset_one 0 (bs - duelWindowStart d) (r : Int) hr0 (by omega)
          omega
        · rw [hIV2]
          have := final_offset_one 0 (bs - duelWindowStart d) (r : Int) hr0 (by omega)
          omega
        · intro bs₁ be₁ hbb
          simp only [Option.some.injEq, Prod.mk.injEq] at hbb
          rw [hIV2]
          have := final_offset_one 0 (bs - duelWindowStart d) (r : Int) hr0 (by omega)
          omega
      · -- only the post-blackout interval (blackout starts at the window start)
        have hIV2 : valid_intervals_seconds hour d =
            [(be - duelWindowStart d, 43200)] := by
          rw [hIV, if_neg hc1, if_pos hc2]; rfl
        have hne : valid_intervals_seconds hour d ≠ [] := by rw [hIV2]; simp
        rw [total_valid_seconds, hIV2] at hr
        simp only [List.map_cons, List.map_nil, List.sum_cons, List.sum_nil,
          add_zero] at hr
        refine ⟨duelWindowStart d +
            final_offset_in_window (valid_intervals_seconds hour d) (r : Int) 0,
          by simp [generate_random_snipe_time_utc, hne, hpos], ?_, ?_, ?_⟩
        · rw [hIV2]
          have := final_offset_one (be - duelWindowStart d) 43200 (r : Int) hr0 (by omega)
          omega
        · rw [hIV2]
          have := final_offset_one (be - duelWindowStart d) 43200 (r : Int) hr0 (by omega)
          omega
        · intro bs₁ be₁ hbb
          simp only [Option.some.injEq, Prod.mk.injEq] at hbb
          rw [hIV2]
          have := final_offset_one (be - duelWindowStart d) 43200 (r : Int) hr0 (by omega)
          omega
      · -- impossible: a 5-hour blackout cannot cover the 12-hour window
        exfalso; omega

/-- The total valid duration is at least 7 hours (25200 s) for every
blackout-hour input and date. -/
lemma total_valid_seconds_ge (hour : Option Int) (d : Int) :
    25200 ≤ total_valid_seconds hour d := by
  cases hb : calculate_blackout_window_utc hour d with
  | none =>
      rw [total_valid_seconds, valid_intervals_of_no_blackout hour d hb]
      simp
  | some p =>
      obtain ⟨bs, be⟩ := p
      obtain ⟨h, hh, h1, h2, hbs, hbe⟩ := blackout_window_shape hour d bs be hb
      have hws := duelWindowStart_eq d
      have hwe := duelWindowEnd_eq d
      rw [total_valid_seconds, valid_intervals_of_blackout hour d bs be hb]
      by_cases hc1 : duelWindowStart d < bs <;> by_cases hc2 : be < duelWindowEnd d <;>
        simp [hc1, hc2] <;> omega

/-- C3: for every blackout start hour input (`none` or any integer),
every date, and every value the random offset generator may return
(`r < total_valid_seconds`), the generated snipe time lies inside the
12-hour activity window `[d@12:00, (d+1)@00:00)` and, when the blackout
window exists, strictly outside it. -/
theorem snipe_time_in_window_outside_blackout (hour : Option Int) (d : Int) (r : Nat)
    (hr : (r : Int) < total_valid_seconds hour d) :
    ∃ t, generate_random_snipe_time_utc hour d r = Except.ok t ∧
      duelWindowStart d ≤ t ∧ t < duelWindowEnd d ∧
      ∀ bs be, calculate_blackout_window_utc hour d = some (bs, be) →
        t < bs ∨ be ≤ t :=
  generate_snipe_mem hour d r hr

/-- C3 witness: blackout hour 14, date 0, random draw 0. -/
theorem snipe_time_in_window_outside_blackout_witness :
    ∃ t, generate_random_snipe_time_utc (some 14) 0 0 = Except.ok t ∧
      duelWindowStart 0 ≤ t ∧ t < duelWindowEnd 0 ∧
      ∀ bs be, calculate_blackout_window_utc (some 14) 0 = some (bs, be) →
        t < bs ∨ be ≤ t :=
  snipe_time_in_window_outside_blackout (some 14) 0 0 (by decide)

/-- C9: the `SchedulingImpossible` branches are unreachable — for every
blackout-hour input, date and random draw, the candidate list is
nonempty, the total valid duration is at least 7 hours, and generation
returns a value rather than an error. -/
theorem scheduling_impossible_unreachable (hour : Option Int) (d : Int) (r : Nat) :
    valid_intervals_seconds hour d ≠ [] ∧
    25200 ≤ total_valid_seconds hour d ∧
    ∃ t, generate_random_snipe_time_utc hour d r = Except.ok t := by
  have htot := total_valid_seconds_ge hour d
  have hne : valid_intervals_seconds hour d ≠ [] := by
    intro he
    rw [total_valid_seconds, he] at htot
    simp at htot
  have hpos : ¬ (total_valid_seconds hour d ≤ 0) := by omega
  exact ⟨hne, htot,
    duelWindowStart d + final_offset_in_window (valid_intervals_seconds hour d) (r : Int) 0,
    by simp [generate_random_snipe_time_utc, hne, hpos]⟩

/-- C1 counterexample: accepting a pending duel where participant 1 has
no blackout and participant 2 has blackout hour 12 can store for
participant 1 the snipe time 43200 (date 0 at 12:00 UTC), which lies
inside participant 2's blackout window `[43200, 61200)` — so
participant 1's snipe time is not generated with participant 2's
blackout excluded. -/
theorem accept_duel_snipe1_inside_opponent_blackout :
    accept_duel_snipe_times none (some 12) 0 0 0 = Except.ok (43200, 61200) ∧
    calculate_blackout_window_utc (some 12) 0 = some (43200, 61200) ∧
    ¬ ((43200 : Int) < 43200 ∨ (61200 : Int) ≤ 43200) :=
  ⟨rfl, rfl, by decide⟩

/-- C1 amended: at the accept transition each participant's snipe time
is generated with that participant's OWN blackout start hour as the
excluded window — participant 1's time avoids participant 1's blackout
and participant 2's time avoids participant 2's blackout, both inside
the activity window. -/
theorem accept_duel_excludes_own_blackout (u1b u2b : Option Int) (d : Int) (r1 r2 : Nat)
    (h1 : (r1 : Int) < total_valid_seconds u1b d)
    (h2 : (r2 : Int) < total_valid_seconds u2b d) :
    ∃ s1 s2, accept_duel_snipe_times u1b u2b d r1 r2 = Except.ok (s1, s2) ∧
      generate_random_snipe_time_utc u1b d r1 = Except.ok s1 ∧
      generate_random_snipe_time_utc u2b d r2 = Except.ok s2 ∧
      duelWindowStart d ≤ s1 ∧ s1 < duelWindowEnd d ∧
      duelWindowStart d ≤ s2 ∧ s2 < duelWindowEnd d ∧
      (∀ bs be, calculate_blackout_window_utc u1b d = some (bs, be) → s1 < bs ∨ be ≤ s1) ∧
      (∀ bs be, calculate_blackout_window_utc u2b d = some (bs, be) → s2 < bs ∨ be ≤ s2) := by
  obtain ⟨s1, hg1, ha1, hb1, hc1⟩ := generate_snipe_mem u1b d r1 h1
  obtain ⟨s2, hg2, ha2, hb2, hc2⟩ := generate_snipe_mem u2b d r2 h2
  refine ⟨s1, s2, ?_, hg1, hg2, ha1, hb1, ha2, hb2, hc1, hc2⟩
  unfold accept_duel_snipe_times
  rw [hg1, hg2]
  rfl

/-- C1 amended witness: participant 1 with blackout hour 12,
participant 2 with none, date 0, draws 0 and 0. -/
theorem accept_duel_excludes_own_blackout_witness :
    ∃ s1 s2, accept_duel_snipe_times (some 12) none 0 0 0 = Except.ok (s1, s2) ∧
      generate_random_snipe_time_utc (some 12) 0 0 = Except.ok s1 ∧
      generate_random_snipe_time_utc none 0 0 = Except.ok s2 ∧
      duelWindowStart 0 ≤ s1 ∧ s1 < duelWindowEnd 0 ∧
      duelWindowStart 0 ≤ s2 ∧ s2 < duelWindowEnd 0 ∧
      (∀ bs be, calculate_blackout_window_utc (some 12) 0 = some (bs, be) → s1 < bs ∨ be ≤ s1) ∧
      (∀ bs be, calculate_blackout_window_utc none 0 = some (bs, be) → s2 < bs ∨ be ≤ s2) :=
  accept_duel_excludes_own_blackout (some 12) none 0 0 0 (by decide) (by decide)

/-- A datetime tagged with utc-offset 0 passes the awareness guards. -/
lemma utc0_not_naive (x : Int) : (⟨x, some 0⟩ : PyDateTime).notUtcAware = false := rfl

/-- C8: the blackout window is `none` exactly when the start hour is
absent or outside `[12, 19]`; otherwise it is
`[d@h:00 UTC, d@h:00 UTC + 5h)`, lasts exactly 5 hours, and is contained
in `[d@00:00, d@00:00 + 2 days)`. -/
theorem blackout_window_spec (hour : Option Int) (d : Int) :
    (calculate_blackout_window_utc hour d = none ↔
      hour = none ∨ ∃ h, hour = some h ∧ (h < 12 ∨ 19 < h)) ∧
    (∀ h, hour = some h → 12 ≤ h → h ≤ 19 →
      calculate_blackout_window_utc hour d =
        some (d * 86400 + h * 3600, d * 86400 + h * 3600 + 5 * 3600)) ∧
    (∀ bs be, calculate_blackout_window_utc hour d = some (bs, be) →
      be - bs = 5 * 3600 ∧ d * 86400 ≤ bs ∧ be ≤ d * 86400 + 2 * 86400) := by
  refine ⟨?_, ?_, ?_⟩
  · cases hour with
    | none => simp [calculate_blackout_window_utc]
    | some h =>
        by_cases hr : 12 ≤ h ∧ h ≤ 19 <;> simp [calculate_blackout_window_utc, hr] <;> omega
  · intro h hh h1 h2
    subst hh
    simp [calculate_blackout_window_utc, h1, h2]
  · intro bs be hb
    obtain ⟨h, hh, h1, h2, hbs, hbe⟩ := blackout_window_shape hour d bs be hb
    omega

/-- C8 witness: hour 14 on date 0 yields the window `[50400, 68400)`. -/
theorem blackout_window_spec_witness :
    calculate_blackout_window_utc (some 14) 0 =
      some (0 * 86400 + 14 * 3600, 0 * 86400 + 14 * 3600 + 5 * 3600) :=
  (blackout_window_spec (some 14) 0).2.1 14 rfl (by decide) (by decide)

/-- C6: for UTC-aware snipe and check-in instants and the 2-minute
tolerance, the check-in is valid iff it lies in the closed interval
`[snipe - 2 min, snipe + 2 min]`, inclusive at both endpoints. -/
theorem checkin_time_tolerance_iff (s t : Int) :
    is_valid_checkin_time (some ⟨s, some 0⟩) (some ⟨t, some 0⟩) CHECKIN_TOLERANCE_MINUTES =
      Except.ok true ↔ s - 2 * 60 ≤ t ∧ t ≤ s + 2 * 60 := by
  simp [is_valid_checkin_time, utc0_not_naive, CHECKIN_TOLERANCE_MINUTES]

/-- C10: a missing (`None`) snipe time or check-in time makes
`is_valid_checkin_time` return `False` rather than raise, for every
other argument — including naive datetimes, so the missing-input check
precedes the UTC-awareness validation that would raise. -/
theorem checkin_missing_input_false (x : Option PyDateTime) (tol : Int) :
    is_valid_checkin_time none x tol = Except.ok false ∧
    is_valid_checkin_time x none tol = Except.ok false := by
  cases x <;> simp [is_valid_checkin_time]

/-- C4: for a UTC-aware instant, prediction is allowed outside the
activity window `[d@12:00, (d+1)@00:00)`; inside the window it is
allowed exactly when the opponent's blackout window exists and contains
the instant (start inclusive, end exclusive) — so with no blackout it is
disallowed everywhere inside the window, and with blackout hour 14 it is
allowed again on `[d@14:00, d@19:00)`. -/
theorem prediction_time_spec (t d : Int) (hour : Option Int) :
    (t < duelWindowStart d ∨ duelWindowEnd d ≤ t →
      is_valid_prediction_time ⟨t, some 0⟩ hour d = Except.ok true) ∧
    (duelWindowStart d ≤ t → t < duelWindowEnd d →
      (is_valid_prediction_time ⟨t, some 0⟩ hour d = Except.ok true ↔
        ∃ bs be, calculate_blackout_window_utc hour d = some (bs, be) ∧ bs ≤ t ∧ t < be)) ∧
    (hour = none → duelWindowStart d ≤ t → t < duelWindowEnd d →
      is_valid_prediction_time ⟨t, some 0⟩ hour d = Except.ok false) ∧
    (hour = some 14 → d * 86400 + 14 * 3600 ≤ t → t < d * 86400 + 19 * 3600 →
      is_valid_prediction_time ⟨t, some 0⟩ hour d = Except.ok true) := by
  have hws := duelWindowStart_eq d
  have hwe := duelWindowEnd_eq d
  refine ⟨?_, ?_, ?_, ?_⟩
  · intro hout
    simp only [is_valid_prediction_time, utc0_not_naive, Bool.false_eq_true, if_false]
    rw [if_pos]
    rcases hout with h | h
    · exact Or.inl h
    · exact Or.inr h
  · intro h1 h2
    simp only [is_valid_prediction_time, utc0_not_naive, Bool.false_eq_true, if_false]
    rw [if_neg (by omega)]
    cases hb : calculate_blackout_window_utc hour d with
    | none => simp
    | some p =>
        obtain ⟨bs, be⟩ := p
        by_cases hc : bs ≤ t ∧ t < be
        · simp [hc]
          exact ⟨bs, be, ⟨rfl, rfl⟩, hc.1, hc.2⟩
        · simp only [hc, if_false]
          constructor
          · intro habs
            exact absurd habs (by simp)
          · rintro ⟨bs₁, be₁, hbb, hin1, hin2⟩
            simp only [Option.some.injEq, Prod.mk.injEq] at hbb
            exact absurd (And.intro (hbb.1 ▸ hin1) (hbb.2 ▸ hin2)) hc
  · intro hh h1 h2
    subst hh
    simp only [is_valid_prediction_time, utc0_not_naive, Bool.false_eq_true, if_false]
    rw [if_neg (by omega)]
    simp [calculate_blackout_window_utc]
  · intro hh h1 h2
    subst hh
    have hb : calculate_blackout_window_utc (some 14) d =
        some (d * 86400 + 14 * 3600, d * 86400 + 14 * 3600 + 5 * 3600) := by
      simp [calculate_blackout_window_utc]
    simp only [is_valid_prediction_time, utc0_not_naive, Bool.false_eq_true, if_false]
    rw [if_neg (by omega)]
    simp only [hb]
    split_ifs with hx
    · rfl
    · exfalso; omega

/-- C4 witness: date 0, blackout hour 14, instant 15:00 UTC — inside the
activity window and inside the blackout, prediction allowed. -/
theorem prediction_time_spec_witness :
    is_valid_prediction_time ⟨54000, some 0⟩ (some 14) 0 = Except.ok true :=
  (prediction_time_spec 54000 0 (some 14)).2.2.2 rfl (by decide) (by decide)

/-- The disqualification flags written by adjudication, read off the
definition without touching the winner computation. -/
lemma calc_results_dq_flags (duel : DuelData) (now s1 s2 : Int)
    (hst : ¬ duel.status = DuelStatus.COMPLETED)
    (hs1 : duel.snipe_time_user1 = some s1)
    (hs2 : duel.snipe_time_user2 = some s2) :
    ∃ p, _calculate_and_update_duel_results duel now = some p ∧
      p.user1_dq = (if duel.user1_actual_lat.isNone ∧
          now > s1 + (CHECKIN_TOLERANCE_MINUTES + 3) * 60 then true else duel.user1_dq) ∧
      p.user2_dq = (if duel.user2_actual_lat.isNone ∧
          now > s2 + (CHECKIN_TOLERANCE_MINUTES + 3) * 60 then true else duel.user2_dq) := by
  unfold _calculate_and_update_duel_results
  rw [if_neg hst, hs1, hs2]
  exact ⟨_, rfl, rfl, rfl⟩

/-- C5: during adjudication of a non-COMPLETED duel with both snipe
times present and no pre-existing disqualification flags, a participant
ends up disqualified exactly when they have no recorded actual
coordinate and the current time is strictly past
`snipe_time + 2 min tolerance + 3 min grace = snipe_time + 5 min`;
a participant with a recorded actual coordinate is never disqualified. -/
theorem adjudication_dq_iff (duel : DuelData) (now s1 s2 : Int)
    (hst : duel.status ≠ DuelStatus.COMPLETED)
    (hs1 : duel.snipe_time_user1 = some s1)
    (hs2 : duel.snipe_time_user2 = some s2)
    (hdq1 : duel.user1_dq = false)
    (hdq2 : duel.user2_dq = false) :
    ∃ p, _calculate_and_update_duel_results duel now = some p ∧
      (p.user1_dq = true ↔ duel.user1_actual_lat = none ∧ now > s1 + 5 * 60) ∧
      (p.user2_dq = true ↔ duel.user2_actual_lat = none ∧ now > s2 + 5 * 60) ∧
      (duel.user1_actual_lat ≠ none → p.user1_dq = false) ∧
      (duel.user2_actual_lat ≠ none → p.user2_dq = false) := by
  obtain ⟨p, hp, e1, e2⟩ := calc_results_dq_flags duel now s1 s2 hst hs1 hs2
  have hgr : (CHECKIN_TOLERANCE_MINUTES + 3) * 60 = 5 * 60 := rfl
  rw [hgr] at e1 e2
  refine ⟨p, hp, ?_, ?_, ?_, ?_⟩
  · rw [e1, hdq1]
    split_ifs with hc
    · simp only [true_iff]
      exact ⟨Option.isNone_iff_eq_none.mp hc.1, hc.2⟩
    · simp only [Bool.false_eq_true, false_iff]
      intro h
      exact hc ⟨Option.isNone_iff_eq_none.mpr h.1, h.2⟩
  · rw [e2, hdq2]
    split_ifs with hc
    · simp only [true_iff]
      exact ⟨Option.isNone_iff_eq_none.mp hc.1, hc.2⟩
    · simp only [Bool.false_eq_true, false_iff]
      intro h
      exact hc ⟨Option.isNone_iff_eq_none.mpr h.1, h.2⟩
  · intro hne
    rw [e1, hdq1]
    rw [if_neg]
    intro hcon
    exact hne (Option.isNone_iff_eq_none.mp hcon.1)
  · intro hne
    rw [e2, hdq2]
    rw [if_neg]
    intro hcon
    exact hne (Option.isNone_iff_eq_none.mp hcon.1)

/-- C5 witness: an ACTIVE duel where user 1 missed the check-in and the
grace deadline has passed while user 2 checked in: user 1 is
disqualified, user 2 is not. -/
theorem adjudication_dq_iff_witness :
    ∃ p, _calculate_and_update_duel_results
        { status := DuelStatus.ACTIVE, user1_id := 1, user2_id := 2,
          user1_predicted_lat := none, user1_predicted_lon := none,
          user2_predicted_lat := none, user2_predicted_lon := none,
          user1_actual_lat := none, user1_actual_lon := none,
          user2_actual_lat := some 5, user2_actual_lon := some 5,
          snipe_time_user1 := some 1000, snipe_time_user2 := some 2000,
          user1_dq := false, user2_dq := false,
          user1_final_distance := none, user2_final_distance := none,
          winner_user_id := none, completed_at := none } 2000 = some p ∧
      p.user1_dq = true ∧ p.user2_dq = false := by
  obtain ⟨p, hp, h1, h2, h3, h4⟩ := adjudication_dq_iff
    { status := DuelStatus.ACTIVE, user1_id := 1, user2_id := 2,
      user1_predicted_lat := none, user1_predicted_lon := none,
      user2_predicted_lat := none, user2_predicted_lon := none,
      user1_actual_lat := none, user1_actual_lon := none,
      user2_actual_lat := some 5, user2_actual_lon := some 5,
      snipe_time_user1 := some 1000, snipe_time_user2 := some 2000,
      user1_dq := false, user2_dq := false,
      user1_final_distance := none, user2_final_distance := none,
      winner_user_id := none, completed_at := none } 2000 1000 2000
    (by simp) rfl rfl rfl rfl
  refine ⟨p, hp, ?_, ?_⟩
  · exact h1.mpr ⟨rfl, by norm_num⟩
  · exact h4 (by simp)

/-- C7: adjudication on a COMPLETED duel detects the status, returns
early and performs no write — the function yields no update payload, so
every stored field is left unchanged. -/
theorem adjudication_completed_noop (duel : DuelData) (now : Int)
    (h : duel.status = DuelStatus.COMPLETED) :
    _calculate_and_update_duel_results duel now = none := by
  unfold _calculate_and_update_duel_results
  rw [if_pos h]

/-- C7 witness: a concrete already-completed duel, no write issued. -/
theorem adjudication_completed_noop_witness :
    _calculate_and_update_duel_results
      { status := DuelStatus.COMPLETED, user1_id := 1, user2_id := 2,
        user1_predicted_lat := none, user1_predicted_lon := none,
        user2_predicted_lat := none, user2_predicted_lon := none,
        user1_actual_lat := none, user1_actual_lon := none,
        user2_actual_lat := none, user2_actual_lon := none,
        snipe_time_user1 := some 1000, snipe_time_user2 := some 2000,
        user1_dq := true, user2_dq := true,
        user1_final_distance := none, user2_final_distance := none,
        winner_user_id := none, completed_at := some 3000 } 5000 = none :=
  adjudication_completed_noop
    { status := DuelStatus.COMPLETED, user1_id := 1, user2_id := 2,
      user1_predicted_lat := none, user1_predicted_lon := none,
      user2_predicted_lat := none, user2_predicted_lon := none,
      user1_actual_lat := none, user1_actual_lon := none,
      user2_actual_lat := none, user2_actual_lon := none,
      snipe_time_user1 := some 1000, snipe_time_user2 := some 2000,
      user1_dq := true, user2_dq := true,
      user1_final_distance := none, user2_final_distance := none,
      winner_user_id := none, completed_at := some 3000 } 5000 rfl

/-- The C2 failing input: an ACTIVE duel where both participants checked
in (both actual coordinates recorded, so nobody is disqualified), user 1
submitted a prediction, and user 2 never predicted — exactly one side
(user 1) has a complete (own prediction, opponent actual) pair. -/
def oneSidedPairDuel : DuelData :=
  { status := DuelStatus.ACTIVE, user1_id := 1, user2_id := 2,
    user1_predicted_lat := some 10, user1_predicted_lon := some 10,
    user2_predicted_lat := none, user2_predicted_lon := none,
    user1_actual_lat := some 50, user1_actual_lon := some 50,
    user2_actual_lat := some 10, user2_actual_lon := some 10,
    snipe_time_user1 := some 100, snipe_time_user2 := some 100,
    user1_dq := false, user2_dq := false,
    user1_final_distance := none, user2_final_distance := none,
    winner_user_id := none, completed_at := none }

/-- C2 (refuted on the code): with neither participant disqualified and
exactly one complete pair — user 1 predicted and user 2's actual is
recorded, while user 2 never predicted — adjudication does NOT award the
win to user 1 by default: both distances stay unset (they are computed
only under a single guard requiring all four coordinate pairs, so the
one-sided default-win branches never fire) and the stored winner is
`none`, a draw. -/
theorem one_sided_complete_pair_gives_draw :
    oneSidedPairDuel.user1_predicted_lat.isSome = true ∧
    oneSidedPairDuel.user2_actual_lat.isSome = true ∧
    oneSidedPairDuel.user2_predicted_lat.isSome = false ∧
    ∃ p, _calculate_and_update_duel_results oneSidedPairDuel 200 = some p ∧
      p.user1_dq = false ∧ p.user2_dq = false ∧
      p.user1_final_distance = none ∧ p.user2_final_distance = none ∧
      p.winner_user_id = none :=
  ⟨rfl, rfl, rfl, _, rfl, rfl, rfl, rfl, rfl, rfl⟩
